import Mathlib

/-! Shallow embedding of the report-generation pipeline of
`variant_reports.pyw` (VariantReportApp).

Pandas data frames are modelled as a schema (list of column names)
plus rows given as total lookup functions from column name to an
optional cell value; `none` models a missing value (NaN).  Selecting
columns keeps the row functions intact and only changes the schema
list; a selection naming a column absent from the schema is modelled
as `none` (pandas raises `KeyError` there).  Python `int()` is
modelled for optionally signed decimal strings with surrounding
whitespace; numeric-literal underscores and non-ASCII digits are not
modelled.  The continental-ancestry fraction is modelled as a rational
number. -/

namespace VariantReports

/-- Python single-quote character, built numerically so that the
quote-prefixed sentinel genotype strings can be written without a
literal apostrophe in this file. -/
def quoteChar : Char := Char.ofNat 39

/-- Whitespace characters recognised by Python `str.strip()` /
`int()` (ASCII subset). -/
def isWS (c : Char) : Bool :=
  c = ' ' || c = '\t' || c = '\n' || c = '\r' || c = Char.ofNat 11 || c = Char.ofNat 12

/-- Python `str.strip()`: drop whitespace from both ends. -/
def pyStrip (l : List Char) : List Char :=
  ((l.dropWhile isWS).reverse.dropWhile isWS).reverse

/-- Decimal digit-string value; `none` when empty or containing a
non-digit. -/
def digitsToNat : List Char → Option Nat
  | [] => none
  | ds =>
    if ds.all Char.isDigit then
      some (ds.foldl (fun a c => a * 10 + (c.toNat - 48)) 0)
    else none

/-- Python `int(s)` on a string: strip whitespace, optional sign,
decimal digits; `none` models the `ValueError` raise. -/
def pyInt (l : List Char) : Option Int :=
  match pyStrip l with
  | '+' :: ds => (digitsToNat ds).map (fun n => (n : Int))
  | '-' :: ds => (digitsToNat ds).map (fun n => -(n : Int))
  | ds => (digitsToNat ds).map (fun n => (n : Int))

/-- Python `s.split(sep)` for a one-character separator: empty pieces
are kept and the result is never the empty list. -/
def splitChar (sep : Char) : List Char → List (List Char)
  | [] => [[]]
  | c :: cs =>
    if c = sep then [] :: splitChar sep cs
    else
      match splitChar sep cs with
      | [] => [[c]]
      | g :: gs => (c :: g) :: gs

/-- Python `str.splitlines()` restricted to the line breaks that can
occur in the gene text box: newline, carriage return, and their
combination; the empty string yields no lines and a trailing break
adds no empty line. -/
def splitlinesPy : List Char → List (List Char)
  | [] => []
  | '\r' :: '\n' :: cs => [] :: splitlinesPy cs
  | '\n' :: cs => [] :: splitlinesPy cs
  | '\r' :: cs => [] :: splitlinesPy cs
  | c :: cs =>
    match splitlinesPy cs with
    | [] => [[c]]
    | g :: gs => (c :: g) :: gs

/-- Python `s.replace('-b38', '')`: remove every (non-overlapping,
leftmost-first) occurrence of the genome-build tag. -/
def stripB38 : List Char → List Char
  | '-' :: 'b' :: '3' :: '8' :: cs => stripB38 cs
  | c :: cs => c :: stripB38 cs
  | [] => []

/-- String version of `stripB38`, as used on the variant-table header
(`s.replace('-b38', '')` in `get_anno_cols`). -/
def stripB38S (s : String) : String := String.mk (stripB38 s.toList)

/-- Python `cell.split(' DMG')[0]`: the prefix of the cell before the
first occurrence of the marker `" DMG"` (the whole cell when the
marker is absent). -/
def dmgHead : List Char → List Char
  | ' ' :: 'D' :: 'M' :: 'G' :: _ => []
  | c :: cs => c :: dmgHead cs
  | [] => []

/-- Homozygous-reference sentinel genotype `'0/0` (with its leading
quote character, exactly as in the source data). -/
def sentRef : String := String.mk [quoteChar, '0', '/', '0']

/-- Fully-missing sentinel genotype `'./.` (with its leading quote
character). -/
def sentMiss : String := String.mk [quoteChar, '.', '/', '.']

/-- Cell predicate of `get_vars_in_selected_samples`:
`e != "'0/0" and e != "'./."`.  In pandas a NaN cell compares unequal
to both strings, so a missing cell also counts. -/
def nonSentinel (c : Option String) : Bool :=
  !(c == some sentRef) && !(c == some sentMiss)

/-- Row of the working table: a total lookup from column name to
optional cell value. -/
abbrev Row : Type := String → Option String

/-- Working table: schema plus rows. -/
structure DataFrame where
  cols : List String
  rows : List Row

/-- Number of non-sentinel cells of a row across the given sample
columns (`sum([1 for e in x if e != "'0/0" and e != "'./."])`). -/
def callCount (samples : List String) (r : Row) : Nat :=
  samples.countP (fun s => nonSentinel (r s))

/-- Column selection `df[cols]`; `none` models the pandas `KeyError`
raised when a requested column is not in the schema. -/
def dfSelect (df : DataFrame) (cols : List String) : Option DataFrame :=
  if cols.all (fun c => df.cols.contains c) then some ⟨cols, df.rows⟩ else none

/-- Sample-list default of `get_vars_in_selected_samples`: when the
passed list is empty, Python substitutes
`list(set(vars_df.columns).difference(set(anno_cols)))`; the set
difference is unordered there, and the header order is chosen here,
which no claim observes. -/
def effectiveSamples (df : DataFrame) (annoCols samples : List String) : List String :=
  if samples.isEmpty then df.cols.filter (fun c => !(annoCols.contains c)) else samples

/-- Embedding of `get_vars_in_selected_samples(vars_df, anno_cols,
samples)`: keep the rows whose call count over the (effective) sample
columns is positive and restrict the schema to annotation plus sample
columns.  `none` models the `KeyError` raised when a named column is
missing from the table. -/
def get_vars_in_selected_samples (df : DataFrame) (annoCols samples : List String) :
    Option DataFrame :=
  if (annoCols ++ effectiveSamples df annoCols samples).all (fun c => df.cols.contains c) then
    some ⟨annoCols ++ effectiveSamples df annoCols samples,
          df.rows.filter (fun r => decide (0 < callCount (effectiveSamples df annoCols samples) r))⟩
  else none

/-- First component of `get_anno_cols()`: the first 35 header
columns, in header order (`temp_df.columns[:35]`). -/
def headAnnoCols (df : DataFrame) : List String :=
  df.cols.take 35

/-- Second component of `get_anno_cols()`: the suffix-stripped
sample-column universe `set([s.replace('-b38', '') for s in
temp_df.columns])` (deduplicated; a set in Python). -/
def sampleUniverse (df : DataFrame) : List String :=
  (df.cols.map stripB38S).dedup

/-- Intersection `aals_samples_from_metadata.intersection(aals_samples_from_report)`
of a cohort with the suffix-stripped sample universe. -/
def metadataSamples (df : DataFrame) (cohort : List String) : List String :=
  cohort.filter (fun s => (sampleUniverse df).contains s)

/-- Column-selection step `exonic_vars_df[anno_cols_from_report +
list(metadata_samples)]` of `generate_report_logic` (line 928): note
that the intersected cohort members are looked up under their
suffix-stripped names. -/
def selectStep (df : DataFrame) (cohort : List String) : Option DataFrame :=
  dfSelect df (headAnnoCols df ++ metadataSamples df cohort)

/-- Base cohort view (lines 926-929): column selection followed by
`get_vars_in_selected_samples` over the intersected cohort. -/
def baseView (df : DataFrame) (cohort : List String) : Option DataFrame :=
  (selectStep df cohort).bind
    (fun d => get_vars_in_selected_samples d (headAnnoCols df) (metadataSamples df cohort))

/-- Category lookup of the ALSOD merge for a single row: the category
of the row's gene in the reference table, or `none` (left join keeps
the row with an empty category when the gene has no entry or the gene
cell itself is missing). -/
def lookupCategory (alsod : List (String × Option String)) (g : Option String) : Option String :=
  match g with
  | none => none
  | some gene =>
    match alsod.find? (fun p => p.1 == gene) with
    | none => none
    | some p => p.2

/-- Embedding of `pd.merge(exonic_vars_df, alsod_genes.drop('Gene
name', axis=1), on='Gene', how='left')` (line 937) for a reference
table keyed by gene (one row per gene, the shape of
`alsod_genes.csv`): one `ALSoD category` column is appended and every
row keeps its place, carrying its gene's category or an empty cell.
`none` models the `KeyError` when the join key is not a column. -/
def alsodMerge (alsod : List (String × Option String)) (df : DataFrame) : Option DataFrame :=
  if df.cols.contains "Gene" then
    some ⟨df.cols ++ ["ALSoD category"],
          df.rows.map (fun r c =>
            if c = "ALSoD category" then lookupCategory alsod (r "Gene") else r c)⟩
  else none

/-- Synonymous-SNV step (lines 919-921): when inclusion is requested
(`synonymous_snvs` true) the table is untouched, otherwise rows whose
`ExonicFunc` cell equals `synonymous_SNV` are removed (a missing cell
compares unequal in pandas and is kept). -/
def synFilter (synonymousSnvs : Bool) (df : DataFrame) : DataFrame :=
  if synonymousSnvs then df
  else ⟨df.cols, df.rows.filter (fun r => !(r "ExonicFunc" == some "synonymous_SNV"))⟩

/-- Embedding of `dmg_tools(cell)`: 0 for a missing cell, else the
Python `int` of the prefix before `" DMG"`, with the bare `except`
mapping any parse failure to 0. -/
def dmg_tools (cell : Option String) : Int :=
  match cell with
  | none => 0
  | some s =>
    match pyInt (dmgHead s.toList) with
    | some n => n
    | none => 0

/-- Damaging-variants view (line 971):
`exonic_vars_df[exonic_vars_df['in silico Predictions'].apply(dmg_tools) >= 6]`. -/
def insilicoView (df : DataFrame) : DataFrame :=
  ⟨df.cols, df.rows.filter (fun r => decide ((6 : Int) ≤ dmg_tools (r "in silico Predictions")))⟩

/-- Free-text gene resolution (line 1042): replace commas by
newlines, split into lines, strip each entry, keep the non-empty
stripped entries. -/
def resolveCustom (t : String) : List String :=
  (splitlinesPy (t.toList.map (fun c => if c = ',' then '\n' else c))).filterMap
    (fun g => let s := pyStrip g; if s.isEmpty then none else some (String.mk s))

/-- Embedding of `get_genes(gene_list, custom_genes)`: the two curated
modes return their file's lines unchanged (the file contents are
parameters here), the free-text mode resolves the text box, and any
other selector returns `none` (Python falls through returning
`None`). -/
def get_genes (alsLines acmgLines : List String) (geneList : String) (customGenes : String) :
    Option (List String) :=
  if geneList = "ALSgenes" then some alsLines
  else if geneList = "ACMGgenes" then some acmgLines
  else if geneList = "textboxgenes" then some (resolveCustom customGenes)
  else none

/-- One metadata row (`answer_metadata.csv`): subject identifier,
project and subject-group descriptors, continental-ancestry fraction,
and the two compound repeat-size fields; `none` models a missing
cell. -/
structure Subject where
  ExternalSubjectId : String
  Project : Option String
  SubjectGroup : Option String
  pct_european : Option ℚ
  C9repeatSize : Option String
  ATXN2repeatSize : Option String

/-- Pandas `series.str.contains(pat, na=False)` on a cell: substring
containment, false on a missing cell. -/
def containsSub (pat : String) (cell : Option String) : Bool :=
  match cell with
  | none => false
  | some s => decide (pat.toList <:+: s.toList)

/-- Sequenced-sample universe (line 892): subjects whose `Project`
contains `Answer ALS`. -/
def aalsSamples (md : List Subject) : List String :=
  ((md.filter (fun s => containsSub "Answer ALS" s.Project)).map
    (fun s => s.ExternalSubjectId)).dedup

/-- All-control cohort (line 893): `Subject Group` contains
`Neurological Control`. -/
def allCtrlsOf (md : List Subject) : List String :=
  ((md.filter (fun s => containsSub "Neurological Control" s.SubjectGroup)).map
    (fun s => s.ExternalSubjectId)).dedup

/-- All-case cohort (line 894): `Subject Group` does not contain
`Control` (so a missing group counts as a case, as `~(... na=False)`
does). -/
def allCasesOf (md : List Subject) : List String :=
  ((md.filter (fun s => !(containsSub "Control" s.SubjectGroup))).map
    (fun s => s.ExternalSubjectId)).dedup

/-- Ancestry test of line 899: `pct_european >= 0.85`; a missing
fraction compares false in pandas. -/
def pctQual (v : Option ℚ) : Bool :=
  match v with
  | none => false
  | some q => decide ((85 : ℚ) / 100 ≤ q)

/-- Subjects passing the ancestry test (line 899). -/
def europeansOf (md : List Subject) : List String :=
  ((md.filter (fun s => pctQual s.pct_european)).map (fun s => s.ExternalSubjectId)).dedup

/-- Sample universe after the optional ancestry filter (lines
896-900): intersected with the Europeans when the caller opts in,
unfiltered otherwise. -/
def ancestryUniverse (md : List Subject) (eurSelected : Bool) : List String :=
  if eurSelected then (aalsSamples md).filter (fun s => (europeansOf md).contains s)
  else aalsSamples md

/-- Expansion qualification lambda of lines 941-942:
`max(map(int, x.split('/'))) > 26 if pd.notna(x) else False`.  An
absent field yields `ok false`; a present field is split on `/` and
every part parsed with Python `int`, `Except.error` modelling the
`ValueError` raised on the first unparseable part. -/
def repeatQualifies (field : Option String) : Except String Bool :=
  match field with
  | none => Except.ok false
  | some x =>
    match (splitChar '/' x.toList).mapM pyInt with
    | none => Except.error "invalid literal for int() with base 10"
    | some [] => Except.error "max() arg is an empty sequence"
    | some (v :: vs) => Except.ok (decide (26 < vs.foldl max v))

/-- Boolean reading of a successful qualification. -/
def qualifiesB (field : Option String) : Bool :=
  match repeatQualifies field with
  | Except.ok true => true
  | _ => false

/-- Expansion cohort of lines 941-942: apply the qualification lambda
to every metadata row (any raise aborts the whole computation, as
`Series.apply` does) and collect the identifiers of the qualifying
rows as a set. -/
def expansionCohort (f : Subject → Option String) (md : List Subject) :
    Except String (List String) := do
  let quals ← md.mapM (fun s => repeatQualifies (f s))
  pure ((((md.zip quals).filter (fun p => p.2)).map (fun p => p.1.ExternalSubjectId)).dedup)

/-- Participating-sample count of the returned summary (line 1015):
`len(metadata_samples)`. -/
def summaryTotalSamples (df : DataFrame) (cohort : List String) : Nat :=
  (metadataSamples df cohort).length

/-- Per-sheet sample count printed by `make_readme` (line 1079):
`combinations[comb]["data"].shape[1] - len(anno_cols_from_report)`. -/
def readmeSampleCount (df : DataFrame) (sheet : DataFrame) : Nat :=
  sheet.cols.length - (headAnnoCols df).length

/-- One entry of the `combinations` dictionary (lines 958-977). -/
structure Combo where
  cases : Option (List String)
  ctrls : Option (List String)
  samples : Option (List String)
  data : DataFrame

/-- Intersection of two Python sets of identifiers, as a list. -/
def interList (a b : List String) : List String :=
  a.filter (fun s => b.contains s)

/-- The `combinations` dictionary in insertion order (lines 958-966
and the update of lines 973-977): the base case/control sheet carries
the cohorts intersected with `metadata_samples`, the two expansion
sheets carry their sample lists, and the three pathogenicity sheets
carry the full (unintersected) case and control cohorts. -/
def mkCombinations (allCasesIds allCtrlsIds ms c9s atxn2s : List String)
    (baseDf c9Df atxn2Df clinvarDf intervarDf insilicoDf : DataFrame) :
    List (String × Combo) :=
  [("all cases vs all controls",
    ⟨some (interList allCasesIds ms), some (interList allCtrlsIds ms), none, baseDf⟩),
   ("C9 (filters)", ⟨none, none, some c9s, c9Df⟩),
   ("ATXN2 (filters)", ⟨none, none, some atxn2s, atxn2Df⟩),
   ("ClinVar", ⟨some allCasesIds, some allCtrlsIds, none, clinvarDf⟩),
   ("Intervar", ⟨some allCasesIds, some allCtrlsIds, none, intervarDf⟩),
   ("Damaging variants", ⟨some allCasesIds, some allCtrlsIds, none, insilicoDf⟩)]

/-- Case/control counts of a sheet as printed by `make_readme` (line
1081): `len(samples["cases"])` and `len(samples["ctrls"])` when the
sheet has a case/control split. -/
def readmeCaseCtrlCounts (c : Combo) : Option (Nat × Nat) :=
  match c.cases, c.ctrls with
  | some cs, some ct => some (cs.length, ct.length)
  | _, _ => none

/-- Boolean reading of `repeatQualifies` hitting `ok true`. -/
def okTrue (e : Except String Bool) : Bool :=
  match e with
  | Except.ok true => true
  | _ => false

/-- Concrete row for witnesses: a non-sentinel call in column `S1`. -/
def c1Row : Row := fun c => if c = "S1" then some "het" else some "g"

/-- Concrete two-column table for the C1 witness. -/
def c1Df : DataFrame := ⟨["Gene", "S1"], [c1Row]⟩

/-- The base view computed from `c1Df` and the cohort `["S1"]`. -/
def c1View : DataFrame := ⟨["Gene", "S1", "S1"], [c1Row]⟩

/-- Concrete 36-column header: 34 annotation fields, `Gene`, and one
sample column `S1` (the first 35 are the annotation columns). -/
def exHeader36 : List String :=
  (List.range 34).map (fun i => "A" ++ toString i) ++ ["Gene", "S1"]

/-- Same header but with the sample column carrying the genome-build
suffix: `S1-b38`. -/
def exHeaderB38 : List String :=
  (List.range 34).map (fun i => "A" ++ toString i) ++ ["Gene", "S1-b38"]

/-- Table whose sample column is named `S1-b38`. -/
def c2Df : DataFrame := ⟨exHeaderB38, []⟩

/-- Small suffix-free table for the C2 witness. -/
def c2wDf : DataFrame := ⟨["Gene", "S1"], []⟩

/-- Suffix-free 36-column table for the C3 evaluation. -/
def c3Df : DataFrame := ⟨exHeader36, []⟩

/-- One-gene category reference table for the C3 evaluation. -/
def c3Alsod : List (String × Option String) := [("G1", some "cat")]

/-- Metadata row whose C9 repeat-size field is present but not
parseable as two integers. -/
def c6Subject : Subject :=
  ⟨"SUBJ1", some "Answer ALS", some "ALS", none, some "abc/30", none⟩

end VariantReports

namespace VariantReports

/-! Helper lemmas shared by the claim theorems. -/

theorem okTrue_iff (e : Except String Bool) : okTrue e = true ↔ e = Except.ok true := by
  cases e with
  | error m => simp [okTrue]
  | ok b => cases b <;> simp [okTrue]

theorem dropWhile_head_false (p : Char → Bool) :
    ∀ (l : List Char) (c : Char) (cs : List Char), l.dropWhile p = c :: cs → p c = false := by
  intro l
  induction l with
  | nil => intro c cs h; simp at h
  | cons a l ih =>
    intro c cs h
    by_cases hp : p a
    · rw [List.dropWhile_cons_of_pos hp] at h
      exact ih c cs h
    · rw [List.dropWhile_cons_of_neg hp] at h
      cases h
      exact Bool.eq_false_iff.mpr hp

theorem pyStrip_head_false (l : List Char) (c : Char) (cs : List Char)
    (h : pyStrip l = c :: cs) : isWS c = false := by
  unfold pyStrip at h
  have hsuf : ((l.dropWhile isWS).reverse.dropWhile isWS) <:+ (l.dropWhile isWS).reverse :=
    List.dropWhile_suffix isWS
  obtain ⟨t, ht⟩ := hsuf
  have hY : l.dropWhile isWS
      = ((l.dropWhile isWS).reverse.dropWhile isWS).reverse ++ t.reverse := by
    have h2 := congrArg List.reverse ht
    rw [List.reverse_append, List.reverse_reverse] at h2
    exact h2.symm
  rw [h] at hY
  exact dropWhile_head_false isWS l c (cs ++ t.reverse) hY

theorem pyStrip_getLast_false (l : List Char) (c : Char)
    (h : (pyStrip l).getLast? = some c) : isWS c = false := by
  unfold pyStrip at h
  rw [List.getLast?_reverse] at h
  cases hx : (l.dropWhile isWS).reverse.dropWhile isWS with
  | nil => rw [hx] at h; simp at h
  | cons a t =>
    rw [hx] at h
    simp only [List.head?_cons, Option.some.injEq] at h
    rw [← h]
    exact dropWhile_head_false isWS (l.dropWhile isWS).reverse a t hx

theorem filter_not_contains_self (l : List String) :
    l.filter (fun c => !(l.contains c)) = [] := by
  rw [List.filter_eq_nil_iff]
  intro a ha
  simp [ha]

theorem mapM_zip_filter_map {α β : Type} (g : α → Except String Bool) (h : α → β) :
    ∀ (l : List α) (qs : List Bool), l.mapM g = Except.ok qs →
      ((l.zip qs).filter (fun p => p.2)).map (fun p => h p.1)
        = (l.filter (fun a => okTrue (g a))).map h := by
  intro l
  induction l with
  | nil =>
    intro qs hq
    simp only [List.mapM_nil, pure, Except.pure] at hq
    cases hq
    simp
  | cons a l ih =>
    intro qs hq
    simp only [List.mapM_cons] at hq
    cases hga : g a with
    | error m => rw [hga] at hq; simp [Bind.bind, Except.bind] at hq
    | ok q =>
      rw [hga] at hq
      simp only [Bind.bind, Except.bind] at hq
      cases hml : l.mapM g with
      | error m => rw [hml] at hq; simp at hq
      | ok rest =>
        rw [hml] at hq
        simp only [pure, Except.pure, Except.ok.injEq] at hq
        subst hq
        have hrest := ih rest hml
        cases q with
        | false =>
          have hok : okTrue (g a) = false := by rw [hga]; rfl
          rw [List.zip_cons_cons, List.filter_cons, List.filter_cons]
          simp [hok, hrest]
        | true =>
          have hok : okTrue (g a) = true := by rw [hga]; rfl
          rw [List.zip_cons_cons, List.filter_cons, List.filter_cons]
          simp [hok, hrest]

theorem expansionCohort_mem (f : Subject → Option String) (md : List Subject)
    (cs : List String) (hc : expansionCohort f md = Except.ok cs) (sid : String) :
    sid ∈ cs ↔ ∃ s ∈ md, s.ExternalSubjectId = sid ∧ repeatQualifies (f s) = Except.ok true := by
  unfold expansionCohort at hc
  cases hm : md.mapM (fun s => repeatQualifies (f s)) with
  | error m =>
    rw [hm] at hc
    simp [Bind.bind, Except.bind] at hc
  | ok quals =>
    rw [hm] at hc
    simp only [Bind.bind, Except.bind, pure, Except.pure, Except.ok.injEq] at hc
    subst hc
    rw [mapM_zip_filter_map (fun s => repeatQualifies (f s)) (fun s => s.ExternalSubjectId) md quals hm]
    simp only [List.mem_dedup, List.mem_map, List.mem_filter]
    constructor
    · rintro ⟨s, ⟨hs, hq⟩, hid⟩
      exact ⟨s, hs, hid, (okTrue_iff _).mp hq⟩
    · rintro ⟨s, hs, hid, hq⟩
      exact ⟨s, ⟨hs, (okTrue_iff _).mpr hq⟩, hid⟩

theorem mapM_none_of_mem {α β : Type} (f : α → Option β) :
    ∀ (l : List α) (a : α), a ∈ l → f a = none → l.mapM f = none := by
  intro l
  induction l with
  | nil => intro a ha; simp at ha
  | cons x l ih =>
    intro a ha hfa
    simp only [List.mapM_cons]
    rcases List.mem_cons.mp ha with h | h
    · rw [h] at hfa; rw [hfa]; rfl
    · cases hfx : f x with
      | none => rfl
      | some b => rw [ih a h hfa]; rfl

theorem pctQual_iff (v : Option ℚ) :
    pctQual v = true ↔ ∃ q, v = some q ∧ (85 : ℚ) / 100 ≤ q := by
  cases v with
  | none => simp [pctQual]
  | some q => simp [pctQual, decide_eq_true_iff]

/-- C5: a metadata subject with an absent repeat-size field never
qualifies (`ok false`); one with a well-formed `<int>/<int>` field
qualifies exactly when the maximum of the two parsed integers exceeds
26; and an identifier belongs to the expansion cohort built from the
metadata iff some metadata row with that identifier qualifies. -/
theorem c5_expansion_membership :
    (∀ (x sa sb : List Char) (a b : Int),
        splitChar '/' x = [sa, sb] → pyInt sa = some a → pyInt sb = some b →
        repeatQualifies (some (String.mk x)) = Except.ok (decide (26 < max a b)))
    ∧ repeatQualifies none = Except.ok false
    ∧ (∀ (f : Subject → Option String) (md : List Subject) (cs : List String) (sid : String),
        expansionCohort f md = Except.ok cs →
        (sid ∈ cs ↔ ∃ s ∈ md, s.ExternalSubjectId = sid ∧ repeatQualifies (f s) = Except.ok true)) := by
  refine ⟨?_, rfl, fun f md cs sid hc => expansionCohort_mem f md cs hc sid⟩
  intro x sa sb a b hsplit ha hb
  have hm : (splitChar '/' (String.mk x).toList).mapM pyInt = some [a, b] := by
    show (splitChar '/' x).mapM pyInt = some [a, b]
    rw [hsplit, List.mapM_cons, ha, List.mapM_cons, hb, List.mapM_nil]
    rfl
  simp only [repeatQualifies, hm]
  rfl

/-- Witness for C5 at the spec's own inputs: `10/30` qualifies,
`10/20` does not, an absent field does not. -/
theorem c5_expansion_membership_witness :
    repeatQualifies (some "10/30") = Except.ok true
    ∧ repeatQualifies (some "10/20") = Except.ok false
    ∧ repeatQualifies none = Except.ok false := by
  refine ⟨?_, ?_, c5_expansion_membership.2.1⟩
  · have h := c5_expansion_membership.1 "10/30".toList ['1', '0'] ['3', '0'] 10 30
      (by decide) (by decide) (by decide)
    exact h.trans (congrArg Except.ok (by decide))
  · have h := c5_expansion_membership.1 "10/20".toList ['1', '0'] ['2', '0'] 10 20
      (by decide) (by decide) (by decide)
    exact h.trans (congrArg Except.ok (by decide))

/-- C6 counterexample: a present but unparseable repeat-size field
makes the expansion-cohort computation raise (a `ValueError` from
`int('abc')` propagates out of `Series.apply`), instead of treating
the subject as non-qualifying and continuing as the claim states. -/
theorem c6_counterexample :
    expansionCohort (fun s => s.C9repeatSize) [c6Subject]
      = Except.error "invalid literal for int() with base 10" := rfl

/-- C6 amended: only an absent repeat-size field is treated as
non-qualifying; a present field with any `/`-separated part that
Python `int` rejects raises, and the error aborts the pipeline (the
lambda of line 941 has no exception handler). -/
theorem c6_amended :
    (∀ (x part : List Char), part ∈ splitChar '/' x → pyInt part = none →
        repeatQualifies (some (String.mk x))
          = Except.error "invalid literal for int() with base 10")
    ∧ repeatQualifies none = Except.ok false := by
  refine ⟨?_, rfl⟩
  intro x part hmem hnone
  have hm : (splitChar '/' (String.mk x).toList).mapM pyInt = none := by
    show (splitChar '/' x).mapM pyInt = none
    exact mapM_none_of_mem pyInt _ part hmem hnone
  simp only [repeatQualifies, hm]

/-- Witness for C6 amended at the field `abc/30`. -/
theorem c6_amended_witness :
    repeatQualifies (some "abc/30") = Except.error "invalid literal for int() with base 10" :=
  c6_amended.1 "abc/30".toList ['a', 'b', 'c'] (by decide) (by decide)

/-- C7: with the ancestry filter opted in, an identifier is retained
in the filtered universe iff it is a sequenced sample and some
metadata row with that identifier has a continental-ancestry fraction
of at least 85/100; opted out, the sequenced universe is used
unchanged; the threshold is inclusive at 0.85 and excludes
0.849999. -/
theorem c7_ancestry_filter :
    (∀ (md : List Subject) (sid : String),
        sid ∈ ancestryUniverse md true ↔
          sid ∈ aalsSamples md ∧
            ∃ s ∈ md, s.ExternalSubjectId = sid ∧
              ∃ q, s.pct_european = some q ∧ (85 : ℚ) / 100 ≤ q)
    ∧ (∀ md : List Subject, ancestryUniverse md false = aalsSamples md)
    ∧ pctQual (some ((85 : ℚ) / 100)) = true
    ∧ pctQual (some ((849999 : ℚ) / 1000000)) = false := by
  refine ⟨?_, fun md => rfl, by simp [pctQual], ?_⟩
  · intro md sid
    show sid ∈ (aalsSamples md).filter (fun s => (europeansOf md).contains s) ↔ _
    rw [List.mem_filter]
    constructor
    · rintro ⟨h1, h2⟩
      refine ⟨h1, ?_⟩
      have h3 : sid ∈ europeansOf md := by simpa using h2
      simp only [europeansOf, List.mem_dedup, List.mem_map, List.mem_filter] at h3
      obtain ⟨s, ⟨hs, hq⟩, hid⟩ := h3
      obtain ⟨q, hq1, hq2⟩ := (pctQual_iff _).mp hq
      exact ⟨s, hs, hid, q, hq1, hq2⟩
    · rintro ⟨h1, s, hs, hid, q, hq1, hq2⟩
      refine ⟨h1, ?_⟩
      have h3 : sid ∈ europeansOf md := by
        simp only [europeansOf, List.mem_dedup, List.mem_map, List.mem_filter]
        exact ⟨s, ⟨hs, (pctQual_iff _).mpr ⟨q, hq1, hq2⟩⟩, hid⟩
      simpa using h3
  · simp only [pctQual, decide_eq_false_iff_not]
    norm_num

/-- C8: with synonymous inclusion requested the table is unchanged by
the synonymous step; with exclusion requested a row survives iff its
functional-class cell differs from `synonymous_SNV`, so no surviving
row carries the marker. -/
theorem c8_synonymous_filter :
    (∀ df : DataFrame, synFilter true df = df)
    ∧ (∀ (df : DataFrame) (r : Row),
        r ∈ (synFilter false df).rows ↔
          r ∈ df.rows ∧ r "ExonicFunc" ≠ some "synonymous_SNV") := by
  refine ⟨fun df => rfl, ?_⟩
  intro df r
  show r ∈ df.rows.filter (fun r => !(r "ExonicFunc" == some "synonymous_SNV")) ↔ _
  rw [List.mem_filter]
  simp

/-- C9: the damaging-variants view keeps exactly the rows of the
merged table whose in-silico cell parses (via `dmg_tools`) to at least
6; the parse is total, yielding 0 for an absent cell and 0 when the
prefix before the `DMG` marker is not a Python integer, and the
parsed integer otherwise. -/
theorem c9_damaging_view :
    (∀ (df : DataFrame) (r : Row),
        r ∈ (insilicoView df).rows ↔
          r ∈ df.rows ∧ (6 : Int) ≤ dmg_tools (r "in silico Predictions"))
    ∧ dmg_tools none = 0
    ∧ (∀ s : String, pyInt (dmgHead s.toList) = none → dmg_tools (some s) = 0)
    ∧ (∀ (s : String) (n : Int), pyInt (dmgHead s.toList) = some n → dmg_tools (some s) = n) := by
  refine ⟨?_, rfl, ?_, ?_⟩
  · intro df r
    show r ∈ df.rows.filter _ ↔ _
    rw [List.mem_filter]
    simp [decide_eq_true_iff]
  · intro s h
    have h' : pyInt (dmgHead s.data) = none := h
    simp [dmg_tools, h']
  · intro s n h
    have h' : pyInt (dmgHead s.data) = some n := h
    simp [dmg_tools, h']

/-- Witness for C9: a cell without the marker parses to 0 and a
well-formed cell parses to its damaging-tool count. -/
theorem c9_damaging_view_witness :
    dmg_tools (some "no prediction") = 0 ∧ dmg_tools (some "7 DMG tools") = 7 :=
  ⟨c9_damaging_view.2.2.1 "no prediction" (by decide),
   c9_damaging_view.2.2.2 "7 DMG tools" 7 (by decide)⟩

/-- C1: a row of the working table belongs to a cohort's view iff
some sample column of the cohort, after intersection with the
suffix-stripped sample universe, holds a genotype different from both
sentinels in that row; and that condition is equivalent to the count
of non-sentinel values over those columns being positive. -/
theorem c1_cohort_view_membership (df : DataFrame) (cohort : List String) (v : DataFrame)
    (hv : baseView df cohort = some v) (r : Row) :
    (r ∈ v.rows ↔ r ∈ df.rows ∧ ∃ c ∈ metadataSamples df cohort, nonSentinel (r c) = true)
    ∧ ((∃ c ∈ metadataSamples df cohort, nonSentinel (r c) = true)
        ↔ 0 < callCount (metadataSamples df cohort) r) := by
  have hcount : (∃ c ∈ metadataSamples df cohort, nonSentinel (r c) = true)
      ↔ 0 < callCount (metadataSamples df cohort) r :=
    (List.countP_pos_iff).symm
  refine ⟨?_, hcount⟩
  unfold baseView at hv
  cases hsel : selectStep df cohort with
  | none => rw [hsel] at hv; simp at hv
  | some d =>
    rw [hsel] at hv
    have hv' : get_vars_in_selected_samples d (headAnnoCols df) (metadataSamples df cohort)
        = some v := hv
    have hd : d = ⟨headAnnoCols df ++ metadataSamples df cohort, df.rows⟩ := by
      unfold selectStep dfSelect at hsel
      split at hsel
      · exact (Option.some_inj.mp hsel).symm
      · simp at hsel
    have heff : effectiveSamples d (headAnnoCols df) (metadataSamples df cohort)
        = if (metadataSamples df cohort).isEmpty then [] else metadataSamples df cohort := by
      unfold effectiveSamples
      by_cases h : (metadataSamples df cohort).isEmpty
      · rw [if_pos h, if_pos h, hd]
        show (headAnnoCols df ++ metadataSamples df cohort).filter _ = []
        rw [List.isEmpty_iff.mp h, List.append_nil]
        exact filter_not_contains_self (headAnnoCols df)
      · rw [if_neg h, if_neg h]
    unfold get_vars_in_selected_samples at hv'
    split at hv'
    · have hveq := (Option.some_inj.mp hv').symm
      rw [hveq]
      show r ∈ d.rows.filter _ ↔ _
      rw [List.mem_filter]
      have hrows : d.rows = df.rows := by rw [hd]
      rw [hrows, heff]
      by_cases h : (metadataSamples df cohort).isEmpty
      · rw [if_pos h, List.isEmpty_iff.mp h]
        simp [callCount]
      · rw [if_neg h]
        simp only [decide_eq_true_iff]
        exact and_congr_right fun _ => hcount.symm
    · simp at hv'

/-- Witness for C1 on a concrete two-column table with one row
carrying a call in `S1`. -/
theorem c1_cohort_view_membership_witness :
    (c1Row ∈ c1View.rows ↔
        c1Row ∈ c1Df.rows ∧ ∃ c ∈ metadataSamples c1Df ["S1"], nonSentinel (c1Row c) = true)
    ∧ ((∃ c ∈ metadataSamples c1Df ["S1"], nonSentinel (c1Row c) = true)
        ↔ 0 < callCount (metadataSamples c1Df ["S1"]) c1Row) :=
  c1_cohort_view_membership c1Df ["S1"] c1View rfl c1Row

/-- C2 counterexample: a cohort member whose table column carries the
`-b38` suffix counts as present in the suffix-stripped universe, yet
the selection step then looks the member up under its stripped name
and fails (pandas `KeyError`), instead of silently using the original
column as the claim states. -/
theorem c2_counterexample :
    metadataSamples c2Df ["S1"] = ["S1"] ∧ selectStep c2Df ["S1"] = none :=
  ⟨by decide, rfl⟩

/-- C2 amended: the base cohort is intersected with the
suffix-stripped sample-column universe and a member absent from that
universe is silently dropped; but the subsequent column selection
addresses the kept members by their stripped identifiers, so it
succeeds (keeping those very names) exactly when every kept member is
literally a table column — a member matched only through a suffixed
column name makes the selection fail. -/
theorem c2_cohort_intersection (df : DataFrame) (cohort : List String) :
    (∀ s, s ∈ metadataSamples df cohort ↔ s ∈ cohort ∧ ∃ c ∈ df.cols, stripB38S c = s)
    ∧ ((∀ s ∈ metadataSamples df cohort, s ∈ df.cols) →
        ∃ d, selectStep df cohort = some d
          ∧ d.cols = headAnnoCols df ++ metadataSamples df cohort ∧ d.rows = df.rows) := by
  constructor
  · intro s
    unfold metadataSamples sampleUniverse
    simp [List.mem_filter, List.mem_dedup, List.mem_map]
  · intro hall
    refine ⟨⟨headAnnoCols df ++ metadataSamples df cohort, df.rows⟩, ?_, rfl, rfl⟩
    have hg : ∀ c ∈ headAnnoCols df ++ metadataSamples df cohort, df.cols.contains c = true := by
      intro c hc
      rcases List.mem_append.mp hc with h | h
      · have hmem : c ∈ df.cols := List.take_subset 35 df.cols h
        simpa using hmem
      · have hmem : c ∈ df.cols := hall c h
        simpa using hmem
    unfold selectStep dfSelect
    rw [if_pos (List.all_eq_true.mpr hg)]

/-- Witness for C2 amended: the member `ABSENT` is silently dropped
and the selection succeeds on the remaining member. -/
theorem c2_cohort_intersection_witness :
    ∃ d, selectStep c2wDf ["S1", "ABSENT"] = some d
      ∧ d.cols = headAnnoCols c2wDf ++ metadataSamples c2wDf ["S1", "ABSENT"]
      ∧ d.rows = c2wDf.rows :=
  (c2_cohort_intersection c2wDf ["S1", "ABSENT"]).2 (by decide)

/-- C3 evaluated at the failing input: a 36-column table (35
annotation columns plus sample `S1`) with cohort `["S1"]`.  The
summary's `total_samples` is 1, but the narrative-summary count for
the base sheet — the sheet's column count minus the annotation-column
count, computed after the ALSoD merge appended its category column —
is 2, so the two counts the claim equates differ. -/
theorem c3_readme_count_evaluation :
    summaryTotalSamples c3Df ["S1"] = 1
    ∧ ((baseView c3Df ["S1"]).bind (alsodMerge c3Alsod)).map (readmeSampleCount c3Df) = some 2
    ∧ ¬ (some (summaryTotalSamples c3Df ["S1"])
          = ((baseView c3Df ["S1"]).bind (alsodMerge c3Alsod)).map (readmeSampleCount c3Df)) :=
  ⟨by decide, by decide, by decide⟩

/-- C4 counterexample: free-text resolution of blank-only input
returns an empty gene list successfully (no validation failure), and
a repeated symbol is kept twice (the resolved list is not
duplicate-free). -/
theorem c4_counterexample :
    get_genes [] [] "textboxgenes" " ,  ," = some []
    ∧ get_genes [] [] "textboxgenes" "SOD1,SOD1" = some ["SOD1", "SOD1"]
    ∧ ¬ (["SOD1", "SOD1"] : List String).Nodup :=
  ⟨by decide, by decide, by decide⟩

/-- C4 amended: free-text resolution always succeeds, returning the
trimmed non-blank entries (each resolved entry is non-empty and has
no leading or trailing whitespace); duplicates are not removed and an
empty result is returned as an empty list rather than failing, while
the curated modes return their file's lines unchanged. -/
theorem c4_freetext_resolution (alsLines acmgLines : List String) (t : String) :
    get_genes alsLines acmgLines "textboxgenes" t = some (resolveCustom t)
    ∧ ∀ g ∈ resolveCustom t, g ≠ ""
        ∧ (∀ c cs, g.toList = c :: cs → isWS c = false)
        ∧ (∀ c, g.toList.getLast? = some c → isWS c = false) := by
  refine ⟨rfl, ?_⟩
  intro g hg
  unfold resolveCustom at hg
  rw [List.mem_filterMap] at hg
  obtain ⟨orig, _, hf⟩ := hg
  by_cases he : (pyStrip orig).isEmpty
  · rw [if_pos he] at hf
    simp at hf
  · rw [if_neg he] at hf
    have hge : g = String.mk (pyStrip orig) := (Option.some_inj.mp hf).symm
    subst hge
    refine ⟨?_, ?_, ?_⟩
    · intro hcon
      have hnil : pyStrip orig = [] := congrArg String.data hcon
      exact he (by rw [hnil]; rfl)
    · intro c cs hcons
      exact pyStrip_head_false orig c cs hcons
    · intro c hlast
      exact pyStrip_getLast_false orig c hlast

/-- Witness for C4 amended at the input ` SOD1 ,FUS`: resolution
succeeds and the entry `SOD1` is non-blank and trimmed. -/
theorem c4_freetext_resolution_witness :
    get_genes [] [] "textboxgenes" " SOD1 ,FUS" = some (resolveCustom " SOD1 ,FUS")
    ∧ ("SOD1" ≠ ""
        ∧ (∀ c cs, "SOD1".toList = c :: cs → isWS c = false)
        ∧ (∀ c, "SOD1".toList.getLast? = some c → isWS c = false)) :=
  ⟨(c4_freetext_resolution [] [] " SOD1 ,FUS").1,
   (c4_freetext_resolution [] [] " SOD1 ,FUS").2 "SOD1" (by decide)⟩

/-- C10: the case/control counts attached to the ClinVar, Intervar
and Damaging-variants sheets — and printed in the narrative summary —
are the sizes of the full metadata cohorts, while the base
case-vs-control sheet carries the cohorts intersected with
`metadata_samples`. -/
theorem c10_readme_cohort_counts (allCasesIds allCtrlsIds ms c9s atxn2s : List String)
    (baseDf c9Df atxn2Df clinvarDf intervarDf insilicoDf : DataFrame) :
    ((mkCombinations allCasesIds allCtrlsIds ms c9s atxn2s
        baseDf c9Df atxn2Df clinvarDf intervarDf insilicoDf).lookup "ClinVar").map
          readmeCaseCtrlCounts
        = some (some (allCasesIds.length, allCtrlsIds.length))
    ∧ ((mkCombinations allCasesIds allCtrlsIds ms c9s atxn2s
        baseDf c9Df atxn2Df clinvarDf intervarDf insilicoDf).lookup "Intervar").map
          readmeCaseCtrlCounts
        = some (some (allCasesIds.length, allCtrlsIds.length))
    ∧ ((mkCombinations allCasesIds allCtrlsIds ms c9s atxn2s
        baseDf c9Df atxn2Df clinvarDf intervarDf insilicoDf).lookup "Damaging variants").map
          readmeCaseCtrlCounts
        = some (some (allCasesIds.length, allCtrlsIds.length))
    ∧ ((mkCombinations allCasesIds allCtrlsIds ms c9s atxn2s
        baseDf c9Df atxn2Df clinvarDf intervarDf insilicoDf).lookup
          "all cases vs all controls").map readmeCaseCtrlCounts
        = some (some ((interList allCasesIds ms).length, (interList allCtrlsIds ms).length)) :=
  ⟨rfl, rfl, rfl, rfl⟩

end VariantReports
